import Mathlib

/-!
Verification of the trading bot repository (backend/main.py and
backend/mock_angelone_api.py) against its natural-language specification.

Prices and monetary values are embedded as rationals (the Python source
uses floats; all claim-relevant arithmetic is exact except for the
explicit `round(x, 2)` calls, which are modelled by `round2` below).
Quantities are embedded as integers (`int(...)` in the source), and
timestamps as rationals measured in seconds (for trigger ages) or
minutes since midnight (for the auto-exit wall-clock comparison).
-/

namespace TradingBot

/-- Transaction side of an order (`transactiontype` in the source). -/
inductive Side
  | BUY
  | SELL
deriving DecidableEq

/-- Declared order type of an exchange order (`ordertype` in the source);
only MARKET orders are submitted by the bot, but the mock exchange also
handles limit orders. -/
inductive OrdKind
  | MARKET
  | LIMIT
deriving DecidableEq

/-- Exchange order status (`status` field in mock_angelone_api.py):
`pending` at placement, then `complete` or `rejected` on resolution,
or `cancelled` through the cancelOrder endpoint. -/
inductive OStatus
  | pending
  | complete
  | rejected
  | cancelled
deriving DecidableEq

/-- Position record of the mock exchange's position ledger
(`mock_store.positions` values in mock_angelone_api.py). String-encoded
numeric fields of the Python dict are embedded directly as numbers. -/
structure Position where
  symboltoken : String
  tradingsymbol : String
  exchange : String
  netqty : Int
  avgprice : ℚ
  ltp : ℚ
  pnl : ℚ
  buyqty : Int
  sellqty : Int
  buyvalue : ℚ
  sellvalue : ℚ
deriving DecidableEq

/-- Rounding to two decimal places, the embedding of Python's
`round(x, 2)` (Python uses round-half-to-even on binary floats; ties at
the third decimal digit do not occur in the claims' arguments, and every
bound proved below is valid for any round-to-nearest tie rule). -/
def round2 (x : ℚ) : ℚ := (round (x * 100) : ℤ) / 100

/-- Fresh position record created on the first fill for an instrument
(mock_angelone_api.py lines 275-288). -/
def initPosition (token sym exch : String) (curPrice : ℚ) : Position :=
  { symboltoken := token
    tradingsymbol := sym
    exchange := exch
    netqty := 0
    avgprice := 0
    ltp := curPrice
    pnl := 0
    buyqty := 0
    sellqty := 0
    buyvalue := 0
    sellvalue := 0 }

/-- Position update applied by `simulate_order_execution` on a successful
fill (mock_angelone_api.py lines 290-327): BUY adds to the net quantity
and recomputes the weighted average (rounded to 2 decimals) when the new
net is positive, else resets the average to 0; SELL subtracts from the
net quantity and resets the average to 0 exactly when the new net is 0;
afterwards PnL is recomputed from the current market price. -/
def applyFill (p : Position) (side : Side) (q : Int) (execPrice curPrice : ℚ) : Position :=
  let p1 :=
    match side with
    | Side.BUY =>
      let newNet := p.netqty + q
      let newAvg : ℚ :=
        if 0 < newNet then
          ((p.netqty : ℚ) * p.avgprice + (q : ℚ) * execPrice) / ((newNet : ℤ) : ℚ)
        else 0
      { p with
          netqty := newNet
          avgprice := round2 newAvg
          buyqty := p.buyqty + q
          buyvalue := p.buyvalue + (q : ℚ) * execPrice }
    | Side.SELL =>
      let newNet := p.netqty - q
      { p with
          netqty := newNet
          avgprice := if newNet = 0 then 0 else p.avgprice
          sellqty := p.sellqty + q
          sellvalue := p.sellvalue + (q : ℚ) * execPrice }
  let newPnl : ℚ :=
    if p1.netqty ≠ 0 then round2 ((curPrice - p1.avgprice) * (p1.netqty : ℚ)) else 0
  { p1 with pnl := newPnl, ltp := curPrice }

/-- Fill event: side, quantity, execution price and market price at
resolution time (for market orders the two prices coincide). -/
structure Fill where
  side : Side
  quantity : Int
  execPrice : ℚ
  curPrice : ℚ
deriving DecidableEq

/-- Sequential application of fills to one instrument's position. -/
def applyFills (p : Position) (fills : List Fill) : Position :=
  fills.foldl (fun acc f => applyFill acc f.side f.quantity f.execPrice f.curPrice) p

lemma round2_zero : round2 0 = 0 := by
  unfold round2
  norm_num

/-- Rounding to two decimals moves a value by at most 1/200. -/
lemma abs_round2_sub (x : ℚ) : |round2 x - x| ≤ 1 / 200 := by
  have h : round2 x - x = (((round (x * 100) : ℤ) : ℚ) - x * 100) / 100 := by
    unfold round2; ring
  rw [h, abs_div]
  have h2 : |(100 : ℚ)| = 100 := by norm_num
  rw [h2]
  have h3 : |((round (x * 100) : ℤ) : ℚ) - x * 100| ≤ 1 / 2 := by
    rw [abs_sub_comm]
    exact abs_sub_round (x * 100)
  linarith

/-- Netting invariant preserved by one fill. -/
lemma applyFill_invariant (p : Position) (side : Side) (q : Int) (e c : ℚ)
    (h : p.netqty = p.buyqty - p.sellqty) :
    (applyFill p side q e c).netqty
        = (applyFill p side q e c).buyqty - (applyFill p side q e c).sellqty
      ∧ ((applyFill p side q e c).netqty = 0 → (applyFill p side q e c).avgprice = 0) := by
  cases side with
  | BUY =>
    unfold applyFill
    simp only
    constructor
    · omega
    · intro h0
      rw [if_neg (by omega)]
      exact round2_zero
  | SELL =>
    unfold applyFill
    simp only
    constructor
    · omega
    · intro h0
      rw [if_pos h0]

/-- C8: for every sequence of BUY/SELL fills applied to one instrument's
position starting from the fresh position record, the invariant
netqty = boughtQty - soldQty holds after every fill, and whenever the net
quantity is exactly 0 the stored average price reads 0. -/
theorem C8_netting_invariant (fills : List Fill) (token sym exch : String) (c : ℚ) :
    (applyFills (initPosition token sym exch c) fills).netqty
        = (applyFills (initPosition token sym exch c) fills).buyqty
          - (applyFills (initPosition token sym exch c) fills).sellqty
      ∧ ((applyFills (initPosition token sym exch c) fills).netqty = 0 →
          (applyFills (initPosition token sym exch c) fills).avgprice = 0) := by
  have key : ∀ (fs : List Fill) (p : Position),
      p.netqty = p.buyqty - p.sellqty →
      (p.netqty = 0 → p.avgprice = 0) →
      (applyFills p fs).netqty = (applyFills p fs).buyqty - (applyFills p fs).sellqty
        ∧ ((applyFills p fs).netqty = 0 → (applyFills p fs).avgprice = 0) := by
    intro fs
    induction fs with
    | nil => intro p h1 h2; exact ⟨h1, h2⟩
    | cons f rest ih =>
      intro p h1 _h2
      have step := applyFill_invariant p f.side f.quantity f.execPrice f.curPrice h1
      exact ih (applyFill p f.side f.quantity f.execPrice f.curPrice) step.1 step.2
  exact key fills (initPosition token sym exch c) (by simp [initPosition])
    (fun _ => by simp [initPosition])

/-- Concrete flat position used in the C1 analysis. -/
def posC1 : Position := initPosition "3045" "SBIN-EQ" "NSE" 0

/-- C1 (amended): a BUY fill sets newNet = oldNet + qty and, when
newNet > 0, stores the weighted average (oldNet*oldAvg + qty*fillPrice) /
newNet rounded to two decimal places (hence within 1/200 of the exact
weighted average), otherwise stores 0; a SELL fill sets
newNet = oldNet - qty and leaves the average unchanged unless newNet = 0,
in which case it resets to 0; two same-direction fills q1@p1 then q2@p2
starting from a flat position yield the stored average
round2((q1*round2(p1) + q2*p2)/(q1+q2)), which is within 1/100 of
(q1*p1+q2*p2)/(q1+q2). -/
theorem C1_position_fill_amended :
    (∀ (p : Position) (q : Int) (e c : ℚ),
        (applyFill p Side.BUY q e c).netqty = p.netqty + q)
    ∧ (∀ (p : Position) (q : Int) (e c : ℚ), 0 < p.netqty + q →
        (applyFill p Side.BUY q e c).avgprice
            = round2 (((p.netqty : ℚ) * p.avgprice + (q : ℚ) * e) / ((p.netqty + q : ℤ) : ℚ))
          ∧ |(applyFill p Side.BUY q e c).avgprice
              - ((p.netqty : ℚ) * p.avgprice + (q : ℚ) * e) / ((p.netqty + q : ℤ) : ℚ)|
            ≤ 1 / 200)
    ∧ (∀ (p : Position) (q : Int) (e c : ℚ), ¬ 0 < p.netqty + q →
        (applyFill p Side.BUY q e c).avgprice = 0)
    ∧ (∀ (p : Position) (q : Int) (e c : ℚ),
        (applyFill p Side.SELL q e c).netqty = p.netqty - q
          ∧ (p.netqty - q ≠ 0 → (applyFill p Side.SELL q e c).avgprice = p.avgprice)
          ∧ (p.netqty - q = 0 → (applyFill p Side.SELL q e c).avgprice = 0))
    ∧ (∀ (p : Position) (q1 q2 : Int) (p1 p2 c1 c2 : ℚ),
        p.netqty = 0 → 0 < q1 → 0 < q2 →
        (applyFill (applyFill p Side.BUY q1 p1 c1) Side.BUY q2 p2 c2).avgprice
            = round2 (((q1 : ℚ) * round2 p1 + (q2 : ℚ) * p2) / ((q1 : ℚ) + (q2 : ℚ)))
          ∧ |(applyFill (applyFill p Side.BUY q1 p1 c1) Side.BUY q2 p2 c2).avgprice
              - ((q1 : ℚ) * p1 + (q2 : ℚ) * p2) / ((q1 : ℚ) + (q2 : ℚ))|
            ≤ 1 / 100) := by
  have hbuy_net : ∀ (p : Position) (q : Int) (e c : ℚ),
      (applyFill p Side.BUY q e c).netqty = p.netqty + q := by
    intro p q e c; simp [applyFill]
  have hbuy_avg : ∀ (p : Position) (q : Int) (e c : ℚ), 0 < p.netqty + q →
      (applyFill p Side.BUY q e c).avgprice
        = round2 (((p.netqty : ℚ) * p.avgprice + (q : ℚ) * e) / ((p.netqty + q : ℤ) : ℚ)) := by
    intro p q e c h
    simp [applyFill, if_pos h]
  refine ⟨hbuy_net, ?_, ?_, ?_, ?_⟩
  · intro p q e c h
    refine ⟨hbuy_avg p q e c h, ?_⟩
    rw [hbuy_avg p q e c h]
    exact abs_round2_sub _
  · intro p q e c h
    simp [applyFill, if_neg h, round2_zero]
  · intro p q e c
    refine ⟨by simp [applyFill], ?_, ?_⟩
    · intro h
      simp [applyFill, if_neg h]
    · intro h
      simp [applyFill, if_pos h]
  · intro p q1 q2 p1 p2 c1 c2 hflat hq1 hq2
    have hq1' : (0 : ℚ) < (q1 : ℚ) := by exact_mod_cast hq1
    have hq2' : (0 : ℚ) < (q2 : ℚ) := by exact_mod_cast hq2
    have hsum : (0 : ℚ) < (q1 : ℚ) + (q2 : ℚ) := by linarith
    have h1net : (applyFill p Side.BUY q1 p1 c1).netqty = q1 := by
      rw [hbuy_net, hflat, zero_add]
    have h1avg : (applyFill p Side.BUY q1 p1 c1).avgprice = round2 p1 := by
      rw [hbuy_avg p q1 p1 c1 (by omega)]
      congr 1
      rw [hflat]
      push_cast
      field_simp
    have h2avg : (applyFill (applyFill p Side.BUY q1 p1 c1) Side.BUY q2 p2 c2).avgprice
        = round2 (((q1 : ℚ) * round2 p1 + (q2 : ℚ) * p2) / ((q1 : ℚ) + (q2 : ℚ))) := by
      rw [hbuy_avg _ q2 p2 c2 (by omega)]
      congr 1
      rw [h1net, h1avg]
      push_cast
      ring_nf
    refine ⟨h2avg, ?_⟩
    rw [h2avg]
    set A := round2 p1 with hA
    set W := ((q1 : ℚ) * p1 + (q2 : ℚ) * p2) / ((q1 : ℚ) + (q2 : ℚ)) with hW
    set W' := ((q1 : ℚ) * A + (q2 : ℚ) * p2) / ((q1 : ℚ) + (q2 : ℚ)) with hW'
    have hdiff : W' - W = (q1 : ℚ) * (A - p1) / ((q1 : ℚ) + (q2 : ℚ)) := by
      rw [hW, hW']
      field_simp
      ring
    have hWW : |W' - W| ≤ 1 / 200 := by
      rw [hdiff, abs_div, abs_mul, abs_of_pos hq1', abs_of_pos hsum]
      rw [div_le_iff₀ hsum]
      have hAp : |A - p1| ≤ 1 / 200 := abs_round2_sub p1
      nlinarith [abs_nonneg (A - p1)]
    have htri : |round2 W' - W| ≤ |round2 W' - W'| + |W' - W| := abs_sub_le _ _ _
    have hr : |round2 W' - W'| ≤ 1 / 200 := abs_round2_sub W'
    linarith

/-- C1 counterexample: starting flat, BUY 1 @ 1 then BUY 2 @ 2. After the
first fill the position reads oldNet = 1, oldAvg = 1, so the claim's
formula for the second fill gives (1*1 + 2*2)/(1+2) = 5/3, but the code
stores the value rounded to two decimals, 1.67 = 167/100 ≠ 5/3. -/
theorem C1_counterexample :
    (applyFill posC1 Side.BUY 1 1 1).netqty = 1
    ∧ (applyFill posC1 Side.BUY 1 1 1).avgprice = 1
    ∧ (applyFill (applyFill posC1 Side.BUY 1 1 1) Side.BUY 2 2 2).avgprice
        ≠ (1 * 1 + 2 * 2) / (1 + 2)
    ∧ (applyFill (applyFill posC1 Side.BUY 1 1 1) Side.BUY 2 2 2).avgprice = 167 / 100 := by
  refine ⟨?_, ?_, ?_, ?_⟩ <;>
    norm_num [applyFill, posC1, initPosition, round2, round_eq]

/-- Witness for C1: the amended BUY-average clause applied at a concrete
position and fill. -/
theorem C1_witness :
    (0 : ℤ) < posC1.netqty + 10
    ∧ (applyFill posC1 Side.BUY 10 100 100).avgprice
        = round2 (((posC1.netqty : ℚ) * posC1.avgprice + (10 : ℚ) * 100)
            / ((posC1.netqty + 10 : ℤ) : ℚ)) :=
  ⟨by norm_num [posC1, initPosition],
    (C1_position_fill_amended.2.1 posC1 10 100 100 (by norm_num [posC1, initPosition])).1⟩

/-- Buy-side trigger condition kinds (`OrderType` enum in main.py). -/
inductive BuyCond
  | live_price
  | points_trigger
  | percentage_trigger
  | candle_trigger
deriving DecidableEq

/-- Sell-side trigger condition kinds (`SellOrderType` enum in main.py). -/
inductive SellCond
  | manual_exit
  | points_stop
  | percentage_stop
  | candle_stop
deriving DecidableEq

/-- Repeat mode of an entry trigger (`TradeMode` enum in main.py). -/
inductive TradeMode
  | single
  | multi
deriving DecidableEq

/-- Direction-specific part of a trigger record in `bot_state.active_orders`:
a `buy_trigger` dict carries order_type, quantity, trade_mode and the
baseline `initial_price` captured at creation; a `sell_trigger` dict
carries only sell_type (no quantity, no trade_mode, no baseline). -/
inductive TrigKind
  | buyTrig (orderType : BuyCond) (quantity : Int) (tradeMode : TradeMode) (initialPrice : ℚ)
  | sellTrig (sellType : SellCond)
deriving DecidableEq

/-- Trigger record stored in `bot_state.active_orders` (main.py lines
224-240 and 271-284). Fields irrelevant to the claims (symbol text,
exchange, candle_size, target_multiplier, trailing_points) are omitted;
`points` and `percentage` are optional exactly as in the request models. -/
structure Trigger where
  kind : TrigKind
  symbolToken : String
  points : Option ℚ
  percentage : Option ℚ
  createdAt : ℚ
  status : String
deriving DecidableEq

/-- Trigger creation of `place_buy_order` for non-live order types
(main.py lines 222-240): the baseline `initial_price` is
`bot_state.price_data.get(symbol_token, {}).get("ltp", 0)`, i.e. 0 when
no price snapshot exists yet for the instrument. -/
def mk_buy_trigger (token : String) (qty : Int) (ot : BuyCond) (mode : TradeMode)
    (pts pct : Option ℚ) (pd : String → Option ℚ) (now : ℚ) : Trigger :=
  { kind := TrigKind.buyTrig ot qty mode ((pd token).getD 0)
    symbolToken := token
    points := pts
    percentage := pct
    createdAt := now
    status := "active" }

/-- Buy-trigger condition check (`check_buy_trigger`, main.py lines
575-596): points mode fires when price >= initial + points, percentage
mode when price >= initial * (1 + percent/100); the candle placeholder
never fires, and a missing parameter raises inside the try block, which
the handler converts to False. -/
def check_buy_trigger (t : Trigger) (currentPrice : ℚ) : Bool :=
  match t.kind with
  | TrigKind.buyTrig ot _ _ initialPrice =>
    match ot with
    | BuyCond.points_trigger =>
      match t.points with
      | some pts => decide (initialPrice + pts ≤ currentPrice)
      | none => false
    | BuyCond.percentage_trigger =>
      match t.percentage with
      | some pct => decide (initialPrice * (1 + pct / 100) ≤ currentPrice)
      | none => false
    | _ => false
  | TrigKind.sellTrig _ => false

/-- Live entry-price lookup used by `check_sell_trigger` (main.py lines
604-609): the average price of the first position whose symboltoken
matches, 0 when no position matches. -/
def lookup_entry_price (positions : List Position) (token : String) : ℚ :=
  match positions.find? (fun p => decide (p.symboltoken = token)) with
  | some p => p.avgprice
  | none => 0

/-- Sell-trigger condition check (`check_sell_trigger`, main.py lines
598-628): the entry price is read live from the position ledger; when it
is 0 the trigger does not fire; points mode fires when
price <= entry - points, percentage mode when
price <= entry * (1 - percent/100); the candle placeholder never fires. -/
def check_sell_trigger (t : Trigger) (positions : List Position) (currentPrice : ℚ) : Bool :=
  match t.kind with
  | TrigKind.sellTrig st =>
    let entryPrice := lookup_entry_price positions t.symbolToken
    if entryPrice = 0 then false
    else
      match st with
      | SellCond.points_stop =>
        match t.points with
        | some pts => decide (currentPrice ≤ entryPrice - pts)
        | none => false
      | SellCond.percentage_stop =>
        match t.percentage with
        | some pct => decide (currentPrice ≤ entryPrice * (1 - pct / 100))
        | none => false
      | _ => false
  | TrigKind.buyTrig _ _ _ _ => false

/-- Order-timeout window in seconds (`Config.ORDER_TIMEOUT_MINUTES * 60`,
5 minutes). -/
def orderTimeoutSeconds : ℚ := 300

/-- Market order submitted when a trigger fires (`execute_trigger`,
main.py lines 630-648): BUY for the trigger's configured quantity, SELL
with quantity 0 to be resolved from the position ledger. The trigger id
is recorded for bookkeeping. -/
structure Fired where
  triggerId : String
  symbolToken : String
  side : Side
  quantity : Int
deriving DecidableEq

/-- Environment read by one scheduler tick: current time (seconds),
latest price snapshot (`bot_state.price_data`, token to last-traded
price) and the position ledger fetched from the exchange. -/
structure Env where
  now : ℚ
  priceData : String → Option ℚ
  positions : List Position

/-- Evaluation of one trigger inside a `trigger_monitor` tick (main.py
lines 538-563). Returns (remove?, fired orders): a non-active record is
skipped; a trigger older than the timeout is removed with no order; a
missing price (0/absent) means skip; a firing buy trigger is removed
exactly when its trade_mode is single, a firing sell trigger is always
removed. -/
def tick_eval (env : Env) (e : String × Trigger) : Bool × List Fired :=
  if e.2.status ≠ "active" then (false, [])
  else if orderTimeoutSeconds < env.now - e.2.createdAt then (true, [])
  else if (env.priceData e.2.symbolToken).getD 0 = 0 then (false, [])
  else
    match e.2.kind with
    | TrigKind.buyTrig _ qty mode _ =>
      if check_buy_trigger e.2 ((env.priceData e.2.symbolToken).getD 0) then
        (decide (mode = TradeMode.single),
          [{ triggerId := e.1, symbolToken := e.2.symbolToken, side := Side.BUY, quantity := qty }])
      else (false, [])
    | TrigKind.sellTrig _ =>
      if check_sell_trigger e.2 env.positions ((env.priceData e.2.symbolToken).getD 0) then
        (true,
          [{ triggerId := e.1, symbolToken := e.2.symbolToken, side := Side.SELL, quantity := 0 }])
      else (false, [])

/-- Concatenation of the order lists produced by every trigger of a tick. -/
def flatAll : List (List Fired) → List Fired
  | [] => []
  | l :: ls => l ++ flatAll ls

/-- Scheduler-visible state: the bot-active flag and the trigger
registry `bot_state.active_orders` (an id-keyed dict, embedded as an
association list with distinct keys). -/
structure BotState where
  botActive : Bool
  activeOrders : List (String × Trigger)
deriving DecidableEq

/-- One tick of `trigger_monitor` (main.py lines 527-573): when the bot
is disabled nothing happens; otherwise every registered trigger is
evaluated against the tick's price snapshot and position ledger, the
fired market orders are submitted, and the triggers marked for removal
are deleted from the registry after the iteration. -/
def trigger_tick (s : BotState) (env : Env) : BotState × List Fired :=
  if s.botActive then
    ({ botActive := s.botActive
       activeOrders := s.activeOrders.filter (fun e => !(tick_eval env e).1) },
      flatAll (s.activeOrders.map (fun e => (tick_eval env e).2)))
  else (s, [])

/-- Iterated scheduler ticks over a sequence of environments. -/
def run_ticks : BotState → List Env → BotState
  | s, [] => s
  | s, env :: rest => run_ticks (trigger_tick s env).1 rest

/-- Some order fired for trigger id `tid` during the tick of `s` in
environment `env`. -/
def fires_in (s : BotState) (env : Env) (tid : String) : Prop :=
  ∃ o ∈ (trigger_tick s env).2, o.triggerId = tid

/-- Retirement policy on fire (main.py lines 554-563): sell triggers
always retire, buy triggers retire exactly when single-mode. -/
def retires_on_fire (t : Trigger) : Bool :=
  match t.kind with
  | TrigKind.buyTrig _ _ mode _ => decide (mode = TradeMode.single)
  | TrigKind.sellTrig _ => true

/-- Entry trigger of the C4 scenario: points mode, baseline 100,
threshold 5, quantity 10, single mode. -/
def trigC4 : Trigger :=
  { kind := TrigKind.buyTrig BuyCond.points_trigger 10 TradeMode.single 100
    symbolToken := "3045"
    points := some 5
    percentage := none
    createdAt := 0
    status := "active" }

/-- Bot state holding only the C4 scenario trigger. -/
def sC4 : BotState := { botActive := true, activeOrders := [("t1", trigC4)] }

/-- Tick environment of the C4 scenario at price `p`. -/
def envC4 (p : ℚ) : Env :=
  { now := 10
    priceData := fun tk => if tk = "3045" then some p else none
    positions := [] }

/-- C4: an active points-mode entry trigger fires iff
price >= baseline + points, and a percentage-mode one iff
price >= baseline * (1 + percent/100); with baseline 100, threshold 5
points and quantity 10, a tick at price 104 fires nothing and leaves the
trigger active, while a tick at price 105 fires exactly one BUY order
for 10 units and retires the single-mode trigger. -/
theorem C4_entry_trigger_condition :
    (∀ (t : Trigger) (qty : Int) (mode : TradeMode) (ip pts p : ℚ),
        t.kind = TrigKind.buyTrig BuyCond.points_trigger qty mode ip →
        t.points = some pts →
        (check_buy_trigger t p = true ↔ ip + pts ≤ p))
    ∧ (∀ (t : Trigger) (qty : Int) (mode : TradeMode) (ip pct p : ℚ),
        t.kind = TrigKind.buyTrig BuyCond.percentage_trigger qty mode ip →
        t.percentage = some pct →
        (check_buy_trigger t p = true ↔ ip * (1 + pct / 100) ≤ p))
    ∧ trigger_tick sC4 (envC4 104) = (sC4, [])
    ∧ trigger_tick sC4 (envC4 105)
        = ({ botActive := true, activeOrders := [] },
            [{ triggerId := "t1", symbolToken := "3045", side := Side.BUY, quantity := 10 }]) := by
  refine ⟨?_, ?_, ?_, ?_⟩
  · intro t qty mode ip pts p hkind hpts
    unfold check_buy_trigger
    rw [hkind, hpts]
    simp
  · intro t qty mode ip pct p hkind hpct
    unfold check_buy_trigger
    rw [hkind, hpct]
    simp
  · norm_num [trigger_tick, sC4, envC4, trigC4, tick_eval, check_buy_trigger,
      orderTimeoutSeconds, flatAll, List.filter]
  · norm_num [trigger_tick, sC4, envC4, trigC4, tick_eval, check_buy_trigger,
      orderTimeoutSeconds, flatAll, List.filter]

/-- Witness for C4: the points-mode equivalence applied to the concrete
scenario trigger at price 105. -/
theorem C4_witness :
    trigC4.kind = TrigKind.buyTrig BuyCond.points_trigger 10 TradeMode.single 100
    ∧ trigC4.points = some 5
    ∧ (check_buy_trigger trigC4 105 = true ↔ (100 : ℚ) + 5 ≤ 105) :=
  ⟨rfl, rfl, C4_entry_trigger_condition.1 trigC4 10 TradeMode.single 100 5 105 rfl rfl⟩

/-- C5: for a sell (exit) trigger the entry price is the live average
price looked up in the position ledger at evaluation time; when the
ledger shows entry price 0 the trigger does not fire; otherwise a
points-stop fires iff price <= entry - points and a percentage-stop
fires iff price <= entry * (1 - percent/100). -/
theorem C5_exit_trigger_condition :
    (∀ (t : Trigger) (st : SellCond) (positions : List Position) (p : ℚ),
        t.kind = TrigKind.sellTrig st →
        lookup_entry_price positions t.symbolToken = 0 →
        check_sell_trigger t positions p = false)
    ∧ (∀ (t : Trigger) (positions : List Position) (p pts : ℚ),
        t.kind = TrigKind.sellTrig SellCond.points_stop →
        t.points = some pts →
        lookup_entry_price positions t.symbolToken ≠ 0 →
        (check_sell_trigger t positions p = true
          ↔ p ≤ lookup_entry_price positions t.symbolToken - pts))
    ∧ (∀ (t : Trigger) (positions : List Position) (p pct : ℚ),
        t.kind = TrigKind.sellTrig SellCond.percentage_stop →
        t.percentage = some pct →
        lookup_entry_price positions t.symbolToken ≠ 0 →
        (check_sell_trigger t positions p = true
          ↔ p ≤ lookup_entry_price positions t.symbolToken * (1 - pct / 100))) := by
  refine ⟨?_, ?_, ?_⟩
  · intro t st positions p hkind hzero
    unfold check_sell_trigger
    rw [hkind]
    simp [hzero]
  · intro t positions p pts hkind hpts hne
    unfold check_sell_trigger
    rw [hkind, hpts]
    simp [hne]
  · intro t positions p pct hkind hpct hne
    unfold check_sell_trigger
    rw [hkind, hpct]
    simp [hne]

/-- Exit trigger of the C5 witness: points-stop with threshold 5. -/
def trigC5 : Trigger :=
  { kind := TrigKind.sellTrig SellCond.points_stop
    symbolToken := "3045"
    points := some 5
    percentage := none
    createdAt := 0
    status := "active" }

/-- Ledger of the C5 witness: one long position of 10 units at average
price 100. -/
def ledgerC5 : List Position :=
  [{ initPosition "3045" "SBIN-EQ" "NSE" 100 with netqty := 10, avgprice := 100 }]

/-- Witness for C5: the points-stop equivalence applied to the concrete
trigger and ledger at price 95. -/
theorem C5_witness :
    trigC5.kind = TrigKind.sellTrig SellCond.points_stop
    ∧ trigC5.points = some 5
    ∧ lookup_entry_price ledgerC5 trigC5.symbolToken ≠ 0
    ∧ (check_sell_trigger trigC5 ledgerC5 95 = true
        ↔ (95 : ℚ) ≤ lookup_entry_price ledgerC5 trigC5.symbolToken - 5) :=
  ⟨rfl, rfl, by norm_num [lookup_entry_price, ledgerC5, trigC5, initPosition, List.find?],
    C5_exit_trigger_condition.2.1 trigC5 ledgerC5 95 5 rfl rfl
      (by norm_num [lookup_entry_price, ledgerC5, trigC5, initPosition, List.find?])⟩

/-- C10: a buy trigger created while no price snapshot exists for its
instrument stores baseline 0; consequently a points-mode trigger fires
iff the first known positive price p satisfies p >= points, and a
percentage-mode trigger fires for every positive price. -/
theorem C10_missing_baseline (token : String) (qty : Int) (ot : BuyCond) (mode : TradeMode)
    (pts pct : Option ℚ) (pd : String → Option ℚ) (now : ℚ)
    (hpd : pd token = none) :
    (mk_buy_trigger token qty ot mode pts pct pd now).kind = TrigKind.buyTrig ot qty mode 0
    ∧ (∀ (p ptsv : ℚ), ot = BuyCond.points_trigger → pts = some ptsv →
        (check_buy_trigger (mk_buy_trigger token qty ot mode pts pct pd now) p = true
          ↔ ptsv ≤ p))
    ∧ (∀ (p pctv : ℚ), ot = BuyCond.percentage_trigger → pct = some pctv → 0 < p →
        check_buy_trigger (mk_buy_trigger token qty ot mode pts pct pd now) p = true) := by
  have hkind : (mk_buy_trigger token qty ot mode pts pct pd now).kind
      = TrigKind.buyTrig ot qty mode 0 := by
    unfold mk_buy_trigger
    rw [hpd]
    rfl
  refine ⟨hkind, ?_, ?_⟩
  · intro p ptsv hot hpts
    subst hot
    subst hpts
    simp [check_buy_trigger, mk_buy_trigger, hpd]
  · intro p pctv hot hpct hp
    subst hot
    subst hpct
    simp [check_buy_trigger, mk_buy_trigger, hpd]
    linarith

/-- Witness for C10: a points-mode trigger created with an empty price
snapshot fires at price 5 with threshold 5. -/
theorem C10_witness :
    ((fun _ : String => (none : Option ℚ)) "9999") = none
    ∧ (check_buy_trigger
        (mk_buy_trigger "9999" 10 BuyCond.points_trigger TradeMode.single
          (some 5) none (fun _ => none) 0) 5 = true
      ↔ (5 : ℚ) ≤ 5) :=
  ⟨rfl,
    (C10_missing_baseline "9999" 10 BuyCond.points_trigger TradeMode.single
      (some 5) none (fun _ => none) 0 rfl).2.1 5 5 rfl rfl⟩

lemma mem_flatAll {x : Fired} : ∀ {ls : List (List Fired)},
    x ∈ flatAll ls ↔ ∃ l ∈ ls, x ∈ l := by
  intro ls
  induction ls with
  | nil => simp [flatAll]
  | cons l rest ih => simp [flatAll, ih]

/-- Every order produced by evaluating a registry entry carries that
entry's trigger id. -/
lemma tick_eval_triggerId (env : Env) (e : String × Trigger) :
    ∀ o ∈ (tick_eval env e).2, o.triggerId = e.1 := by
  intro o ho
  unfold tick_eval at ho
  split at ho
  · simp at ho
  split at ho
  · simp at ho
  split at ho
  · simp at ho
  split at ho
  · split at ho
    · simp at ho
      rw [ho]
    · simp at ho
  · split at ho
    · simp at ho
      rw [ho]
    · simp at ho

/-- When a registry entry fires, its removal flag equals the retirement
policy of its trigger. -/
lemma tick_eval_flag (env : Env) (e : String × Trigger)
    (h : (tick_eval env e).2 ≠ []) :
    (tick_eval env e).1 = retires_on_fire e.2 := by
  rcases hk : e.2.kind with ⟨ot, qty, mode, ip⟩ | ⟨st⟩ <;>
    (unfold tick_eval at h ⊢
     unfold retires_on_fire
     simp only [hk] at h ⊢
     split_ifs at h ⊢ <;> simp_all)

/-- Timeout retirement: an active trigger older than the timeout window
is marked for removal with no order, whatever the price snapshot and
positions say. -/
lemma tick_eval_timeout (env : Env) (e : String × Trigger)
    (hst : e.2.status = "active")
    (hto : orderTimeoutSeconds < env.now - e.2.createdAt) :
    tick_eval env e = (true, []) := by
  unfold tick_eval
  rw [if_neg (by simp [hst]), if_pos hto]

/-- Components of an active-bot tick. -/
lemma trigger_tick_active (s : BotState) (env : Env) (hb : s.botActive = true) :
    (trigger_tick s env).1.activeOrders
        = s.activeOrders.filter (fun e => !(tick_eval env e).1)
      ∧ (trigger_tick s env).2
        = flatAll (s.activeOrders.map (fun e => (tick_eval env e).2)) := by
  unfold trigger_tick
  rw [if_pos hb]
  exact ⟨rfl, rfl⟩

/-- In an association list with distinct keys, a key determines its value. -/
lemma assoc_key_eq {α : Type} {l : List (String × α)}
    (hnd : (l.map Prod.fst).Nodup) {k : String} {a b : α}
    (ha : (k, a) ∈ l) (hb : (k, b) ∈ l) : a = b := by
  induction l with
  | nil => simp at ha
  | cons e rest ih =>
    rw [List.map_cons, List.nodup_cons] at hnd
    rcases List.mem_cons.mp ha with ha1 | ha1
    · rcases List.mem_cons.mp hb with hb1 | hb1
      · rw [← ha1] at hb1
        exact (Prod.mk.injEq _ _ _ _ ▸ hb1).2.symm ▸ rfl
      · exfalso
        apply hnd.1
        rw [← ha1]
        exact List.mem_map.mpr ⟨(k, b), hb1, rfl⟩
    · rcases List.mem_cons.mp hb with hb1 | hb1
      · exfalso
        apply hnd.1
        rw [← hb1]
        exact List.mem_map.mpr ⟨(k, a), ha1, rfl⟩
      · exact ih hnd.2 ha1 hb1

/-- A fire during a tick comes from some registered entry with that id
whose evaluation produced a nonempty order list (and the bot was on). -/
lemma fires_exists (s : BotState) (env : Env) (tid : String)
    (hf : fires_in s env tid) :
    s.botActive = true
      ∧ ∃ e ∈ s.activeOrders, e.1 = tid ∧ (tick_eval env e).2 ≠ [] := by
  rcases hf with ⟨o, ho, hid⟩
  by_cases hb : s.botActive
  · refine ⟨hb, ?_⟩
    rw [(trigger_tick_active s env hb).2] at ho
    rcases mem_flatAll.mp ho with ⟨l, hl, hol⟩
    rcases List.mem_map.mp hl with ⟨e, he, rfl⟩
    refine ⟨e, he, ?_, ?_⟩
    · rw [← tick_eval_triggerId env e o hol, hid]
    · intro hemp
      rw [hemp] at hol
      simp at hol
  · unfold trigger_tick at ho
    rw [if_neg hb] at ho
    simp at ho

/-- An id absent from the registry stays absent over a tick and cannot
fire in it. -/
lemma absent_tick (s : BotState) (env : Env) (tid : String)
    (h : tid ∉ s.activeOrders.map Prod.fst) :
    tid ∉ (trigger_tick s env).1.activeOrders.map Prod.fst
      ∧ ¬ fires_in s env tid := by
  constructor
  · intro habs
    by_cases hb : s.botActive
    · rw [(trigger_tick_active s env hb).1] at habs
      rcases List.mem_map.mp habs with ⟨e, he, heid⟩
      exact h (List.mem_map.mpr ⟨e, (List.mem_filter.mp he).1, heid⟩)
    · unfold trigger_tick at habs
      rw [if_neg hb] at habs
      exact h habs
  · intro hf
    rcases fires_exists s env tid hf with ⟨_, e, he, heid, _⟩
    exact h (List.mem_map.mpr ⟨e, he, heid⟩)

/-- An id absent from the registry never reappears and never fires over
any further run of ticks. -/
lemma absent_run (tid : String) : ∀ (envs : List Env) (s : BotState),
    tid ∉ s.activeOrders.map Prod.fst →
    tid ∉ (run_ticks s envs).activeOrders.map Prod.fst
      ∧ ∀ env', ¬ fires_in (run_ticks s envs) env' tid := by
  intro envs
  induction envs with
  | nil =>
    intro s h
    exact ⟨h, fun env' => (absent_tick s env' tid h).2⟩
  | cons env rest ih =>
    intro s h
    exact ih _ (absent_tick s env tid h).1

/-- C2: when a registered trigger fires during a tick, it is retired
according to its mode: a sell (exit) trigger and a single-mode buy
trigger are removed from the registry and can never fire again in any
later tick; a multi-mode buy trigger remains registered unchanged (same
baseline price). In particular a single-mode trigger fires at most once
over the whole run. -/
theorem C2_trigger_retirement (s : BotState) (env : Env) (tid : String) (t : Trigger)
    (hnd : (s.activeOrders.map Prod.fst).Nodup)
    (hmem : (tid, t) ∈ s.activeOrders)
    (hfire : fires_in s env tid) :
    (retires_on_fire t = true →
        tid ∉ (trigger_tick s env).1.activeOrders.map Prod.fst
        ∧ ∀ (envs : List Env) (env' : Env),
            ¬ fires_in (run_ticks (trigger_tick s env).1 envs) env' tid)
    ∧ (retires_on_fire t = false →
        (tid, t) ∈ (trigger_tick s env).1.activeOrders) := by
  obtain ⟨hb, e, he, heid, hne⟩ := fires_exists s env tid hfire
  rcases e with ⟨k, t'⟩
  cases heid
  have ht' : t' = t := assoc_key_eq hnd he hmem
  subst ht'
  have hflag := tick_eval_flag env (k, t') hne
  constructor
  · intro hr
    have hremove : k ∉ (trigger_tick s env).1.activeOrders.map Prod.fst := by
      intro habs
      rw [(trigger_tick_active s env hb).1] at habs
      rcases List.mem_map.mp habs with ⟨e', he', he'id⟩
      rcases List.mem_filter.mp he' with ⟨hmem', hcond⟩
      rcases e' with ⟨k', t''⟩
      cases he'id
      have ht'' : t'' = t' := assoc_key_eq hnd hmem' hmem
      subst ht''
      rw [hflag, hr] at hcond
      simp at hcond
    exact ⟨hremove, fun envs env' => (absent_run k envs _ hremove).2 env'⟩
  · intro hr
    rw [(trigger_tick_active s env hb).1]
    apply List.mem_filter.mpr
    refine ⟨hmem, ?_⟩
    rw [hflag, hr]
    rfl

/-- Exit trigger of the C2 witness: a points-stop on token 3045. -/
def trigC2 : Trigger :=
  { kind := TrigKind.sellTrig SellCond.points_stop
    symbolToken := "3045"
    points := some 5
    percentage := none
    createdAt := 0
    status := "active" }

/-- Bot state of the C2 witness. -/
def sC2 : BotState := { botActive := true, activeOrders := [("s1", trigC2)] }

/-- Environment of the C2 witness: price 95 against a long position with
average price 100 and a 5-point stop, so the trigger fires. -/
def envC2 : Env :=
  { now := 10
    priceData := fun tk => if tk = "3045" then some 95 else none
    positions := ledgerC5 }

/-- Witness for C2: the concrete sell trigger fires and is retired
forever. -/
theorem C2_witness :
    (sC2.activeOrders.map Prod.fst).Nodup
    ∧ ("s1", trigC2) ∈ sC2.activeOrders
    ∧ fires_in sC2 envC2 "s1"
    ∧ ((retires_on_fire trigC2 = true →
        "s1" ∉ (trigger_tick sC2 envC2).1.activeOrders.map Prod.fst
        ∧ ∀ (envs : List Env) (env' : Env),
            ¬ fires_in (run_ticks (trigger_tick sC2 envC2).1 envs) env' "s1")
      ∧ (retires_on_fire trigC2 = false →
          ("s1", trigC2) ∈ (trigger_tick sC2 envC2).1.activeOrders)) := by
  have hf : fires_in sC2 envC2 "s1" := by
    refine ⟨{ triggerId := "s1", symbolToken := "3045", side := Side.SELL, quantity := 0 }, ?_, rfl⟩
    norm_num [trigger_tick, sC2, envC2, tick_eval, check_sell_trigger, lookup_entry_price,
      ledgerC5, trigC2, initPosition, orderTimeoutSeconds, flatAll, List.find?]
  exact ⟨by simp [sC2], by simp [sC2], hf,
    C2_trigger_retirement sC2 envC2 "s1" trigC2 (by simp [sC2]) (by simp [sC2]) hf⟩

/-- C6: on a tick, an active trigger whose age exceeds the timeout
window is retired unconditionally, independently of the price snapshot
and position ledger (neither is consulted), and it submits no order;
hence a trigger created at time T with window W never fires at any tick
whose time is past T + W. -/
theorem C6_trigger_timeout (env : Env) (tid : String) (t : Trigger)
    (hstatus : t.status = "active")
    (htimeout : orderTimeoutSeconds < env.now - t.createdAt) :
    (∀ (pd : String → Option ℚ) (pos : List Position),
        tick_eval { now := env.now, priceData := pd, positions := pos } (tid, t) = (true, []))
    ∧ ∀ (s : BotState), s.botActive = true →
        (tid, t) ∉ (trigger_tick s env).1.activeOrders
        ∧ ((s.activeOrders.map Prod.fst).Nodup → (tid, t) ∈ s.activeOrders →
            ¬ fires_in s env tid) := by
  have hev : tick_eval env (tid, t) = (true, []) :=
    tick_eval_timeout env (tid, t) hstatus htimeout
  refine ⟨fun pd pos => tick_eval_timeout _ (tid, t) hstatus htimeout, ?_⟩
  intro s hb
  constructor
  · intro habs
    rw [(trigger_tick_active s env hb).1] at habs
    have hcond := (List.mem_filter.mp habs).2
    rw [hev] at hcond
    simp at hcond
  · intro hnd hmem hf
    rcases fires_exists s env tid hf with ⟨_, e, he, heid, hne⟩
    rcases e with ⟨k, t'⟩
    cases heid
    have ht' : t' = t := assoc_key_eq hnd he hmem
    subst ht'
    rw [hev] at hne
    simp at hne

/-- Entry trigger of the C6 witness, created at time 0. -/
def trigC6 : Trigger :=
  { kind := TrigKind.buyTrig BuyCond.points_trigger 10 TradeMode.single 100
    symbolToken := "3045"
    points := some 5
    percentage := none
    createdAt := 0
    status := "active" }

/-- Environment of the C6 witness: 301 seconds after creation (past the
300-second window) with a price that would otherwise qualify. -/
def envC6 : Env :=
  { now := 301
    priceData := fun _ => some 1000
    positions := [] }

/-- Witness for C6: the aged trigger is retired with no order even
though the price qualifies. -/
theorem C6_witness :
    trigC6.status = "active"
    ∧ orderTimeoutSeconds < envC6.now - trigC6.createdAt
    ∧ ((∀ (pd : String → Option ℚ) (pos : List Position),
        tick_eval { now := envC6.now, priceData := pd, positions := pos } ("t6", trigC6)
          = (true, []))
      ∧ ∀ (s : BotState), s.botActive = true →
          ("t6", trigC6) ∉ (trigger_tick s envC6).1.activeOrders
          ∧ ((s.activeOrders.map Prod.fst).Nodup → ("t6", trigC6) ∈ s.activeOrders →
              ¬ fires_in s envC6 "t6")) :=
  ⟨rfl, by norm_num [orderTimeoutSeconds, envC6, trigC6],
    C6_trigger_timeout envC6 "t6" trigC6 rfl
      (by norm_num [orderTimeoutSeconds, envC6, trigC6])⟩

/-- Exchange order record (`mock_store.orders` values in
mock_angelone_api.py, lines 414-431). Timestamp strings and fields
irrelevant to the claims (variety, producttype, duration, triggerprice)
are omitted. -/
structure Order where
  orderid : String
  tradingsymbol : String
  symboltoken : String
  transactiontype : Side
  exchange : String
  ordertype : OrdKind
  price : ℚ
  quantity : Int
  status : OStatus
  orderstatus : String
deriving DecidableEq

/-- Trade record created exactly once per successful fill
(mock_angelone_api.py lines 259-271). -/
structure Trade where
  tradeid : String
  orderid : String
  transactiontype : Side
  quantity : Int
  price : ℚ
  symboltoken : String
deriving DecidableEq

/-- Lookup in a dict embedded as an association list (Python `d[k]` /
`k in d`). -/
def getAssoc {α : Type} : List (String × α) → String → Option α
  | [], _ => none
  | e :: rest, k => if e.1 = k then some e.2 else getAssoc rest k

/-- Assignment in a dict embedded as an association list (Python
`d[k] = v`): replaces the entry when the key is present, appends
otherwise. -/
def setAssoc {α : Type} : List (String × α) → String → α → List (String × α)
  | [], k, v => [(k, v)]
  | e :: rest, k, v => if e.1 = k then (k, v) :: rest else e :: setAssoc rest k v

/-- State of the mock exchange (`MockDataStore`): order book, trade
book, position ledger and price snapshot. -/
structure MockStore where
  orders : List (String × Order)
  trades : List Trade
  positions : List (String × Position)
  priceData : String → Option ℚ

/-- Resolution step of `simulate_order_execution`'s `process_order`
(mock_angelone_api.py lines 234-333), with the random draw passed in as
`success`: on success the order turns `complete`, its price becomes the
current market price (market orders) or the limit price, one trade is
appended, and the position for token_exchange is created if missing and
updated by `applyFill`; on failure the order merely turns `rejected`.
The function runs whenever the order id is in the book, regardless of
the order's current status (the background thread does not re-check
it). -/
def process_order (store : MockStore) (orderId : String) (success : Bool)
    (tradeId : String) : MockStore :=
  match getAssoc store.orders orderId with
  | none => store
  | some o =>
    if success then
      let currentPrice := (store.priceData o.symboltoken).getD 0
      let execPrice := if o.ordertype = OrdKind.MARKET then currentPrice else o.price
      let pkey := o.symboltoken ++ "_" ++ o.exchange
      let pos0 := (getAssoc store.positions pkey).getD
        (initPosition o.symboltoken o.tradingsymbol o.exchange currentPrice)
      { store with
          orders := setAssoc store.orders orderId
            { o with status := OStatus.complete, orderstatus := "executed", price := execPrice }
          trades := store.trades ++
            [{ tradeid := tradeId, orderid := orderId, transactiontype := o.transactiontype,
               quantity := o.quantity, price := execPrice, symboltoken := o.symboltoken }]
          positions := setAssoc store.positions pkey
            (applyFill pos0 o.transactiontype o.quantity execPrice currentPrice) }
    else
      { store with
          orders := setAssoc store.orders orderId
            { o with status := OStatus.rejected, orderstatus := "rejected" } }

/-- Cancel endpoint (`cancel_order`, mock_angelone_api.py lines
515-552): only a pending order is cancelled; a missing or non-pending
order leaves the store unchanged (an error response is returned). -/
def cancel_order (store : MockStore) (orderId : String) : MockStore :=
  match getAssoc store.orders orderId with
  | none => store
  | some o =>
    if o.status = OStatus.pending then
      { store with
          orders := setAssoc store.orders orderId
            { o with status := OStatus.cancelled, orderstatus := "cancelled" } }
    else store

/-- Modify endpoint (`modify_order`, mock_angelone_api.py lines
460-513): only a pending order is updated (price and quantity); the
status field is never touched. -/
def modify_order (store : MockStore) (orderId : String) (price : ℚ) (qty : Int) : MockStore :=
  match getAssoc store.orders orderId with
  | none => store
  | some o =>
    if o.status = OStatus.pending then
      { store with
          orders := setAssoc store.orders orderId { o with price := price, quantity := qty } }
    else store

/-- Status of an order in the book. -/
def statusOf (store : MockStore) (orderId : String) : Option OStatus :=
  (getAssoc store.orders orderId).map Order.status

/-- Operations that can touch an order after placement. -/
inductive OrderOp
  | resolve (success : Bool) (tradeId : String)
  | cancel
  | modify (price : ℚ) (qty : Int)

/-- Whether an operation is the (unique, background) resolution. -/
def isResolve : OrderOp → Bool
  | OrderOp.resolve _ _ => true
  | _ => false

/-- Application of one operation to the store, targeting order
`orderId`. -/
def applyOp (store : MockStore) (orderId : String) : OrderOp → MockStore
  | OrderOp.resolve success tradeId => process_order store orderId success tradeId
  | OrderOp.cancel => cancel_order store orderId
  | OrderOp.modify price qty => modify_order store orderId price qty

/-- Sequential application of operations to the store. -/
def applyOps (store : MockStore) (orderId : String) : List OrderOp → MockStore
  | [] => store
  | op :: rest => applyOps (applyOp store orderId op) orderId rest

lemma getAssoc_setAssoc {α : Type} (l : List (String × α)) (k : String) (v : α) :
    getAssoc (setAssoc l k v) k = some v := by
  induction l with
  | nil => simp [setAssoc, getAssoc]
  | cons e rest ih =>
    by_cases h : e.1 = k
    · simp [setAssoc, getAssoc, h]
    · simp [setAssoc, getAssoc, h, ih]

lemma cancel_nonpending (store : MockStore) (oid : String) (o : Order)
    (h : getAssoc store.orders oid = some o) (hp : o.status ≠ OStatus.pending) :
    cancel_order store oid = store := by
  unfold cancel_order
  rw [h]
  simp [hp]

lemma modify_nonpending (store : MockStore) (oid : String) (o : Order) (price : ℚ) (qty : Int)
    (h : getAssoc store.orders oid = some o) (hp : o.status ≠ OStatus.pending) :
    modify_order store oid price qty = store := by
  unfold modify_order
  rw [h]
  simp [hp]

/-- C7: when an order resolves to rejected, no trade is created, the
position ledger is completely unchanged, the order stays in the book
with terminal status rejected, and a subsequent cancel attempt leaves
the store untouched. -/
theorem C7_rejected_atomicity (store : MockStore) (oid tid : String) (o : Order)
    (h : getAssoc store.orders oid = some o) :
    (process_order store oid false tid).trades = store.trades
    ∧ (process_order store oid false tid).positions = store.positions
    ∧ statusOf (process_order store oid false tid) oid = some OStatus.rejected
    ∧ cancel_order (process_order store oid false tid) oid
        = process_order store oid false tid := by
  have hres : process_order store oid false tid
      = { store with
            orders := setAssoc store.orders oid
              { o with status := OStatus.rejected, orderstatus := "rejected" } } := by
    unfold process_order
    rw [h]
    simp
  refine ⟨by rw [hres], by rw [hres], ?_, ?_⟩
  · rw [hres]
    unfold statusOf
    simp [getAssoc_setAssoc]
  · apply cancel_nonpending _ oid
      { o with status := OStatus.rejected, orderstatus := "rejected" }
    · rw [hres]
      exact getAssoc_setAssoc store.orders oid _
    · simp

/-- Pending market BUY order of the C7 witness. -/
def ordC7 : Order :=
  { orderid := "O1"
    tradingsymbol := "SBIN-EQ"
    symboltoken := "3045"
    transactiontype := Side.BUY
    exchange := "NSE"
    ordertype := OrdKind.MARKET
    price := 0
    quantity := 10
    status := OStatus.pending
    orderstatus := "open" }

/-- Exchange store of the C7 witness: one pending order, empty trade
book and ledger. -/
def storeC7 : MockStore :=
  { orders := [("O1", ordC7)]
    trades := []
    positions := []
    priceData := fun tk => if tk = "3045" then some 520 else none }

/-- Witness for C7: rejecting the concrete pending order changes
nothing but its status. -/
theorem C7_witness :
    getAssoc storeC7.orders "O1" = some ordC7
    ∧ ((process_order storeC7 "O1" false "T1").trades = storeC7.trades
      ∧ (process_order storeC7 "O1" false "T1").positions = storeC7.positions
      ∧ statusOf (process_order storeC7 "O1" false "T1") "O1" = some OStatus.rejected
      ∧ cancel_order (process_order storeC7 "O1" false "T1") "O1"
          = process_order storeC7 "O1" false "T1") :=
  ⟨rfl, C7_rejected_atomicity storeC7 "O1" "T1" ordC7 rfl⟩

/-- C9 (amended): resolution moves an order (whatever its status) to
complete on success and rejected on failure; cancelOrder moves a pending
order to cancelled, so cancelled is a third exit from pending; modify
never changes the status; on a non-pending order any sequence of
cancel/modify operations leaves the store entirely unchanged, so
complete and rejected are terminal given that the single background
resolution runs exactly once per order — but that resolution, if it runs
after a cancellation, still overwrites the cancelled status. -/
theorem C9_status_transitions_amended :
    (∀ (store : MockStore) (oid tid : String) (o : Order),
        getAssoc store.orders oid = some o →
        statusOf (process_order store oid true tid) oid = some OStatus.complete
        ∧ statusOf (process_order store oid false tid) oid = some OStatus.rejected)
    ∧ (∀ (store : MockStore) (oid : String) (o : Order),
        getAssoc store.orders oid = some o → o.status = OStatus.pending →
        statusOf (cancel_order store oid) oid = some OStatus.cancelled)
    ∧ (∀ (store : MockStore) (oid : String) (o : Order) (price : ℚ) (qty : Int),
        getAssoc store.orders oid = some o →
        statusOf (modify_order store oid price qty) oid = some o.status)
    ∧ (∀ (store : MockStore) (oid : String) (o : Order) (ops : List OrderOp),
        getAssoc store.orders oid = some o → o.status ≠ OStatus.pending →
        (∀ op ∈ ops, isResolve op = false) →
        applyOps store oid ops = store) := by
  refine ⟨?_, ?_, ?_, ?_⟩
  · intro store oid tid o h
    constructor
    · unfold process_order
      rw [h]
      unfold statusOf
      simp [getAssoc_setAssoc]
    · unfold process_order
      rw [h]
      unfold statusOf
      simp [getAssoc_setAssoc]
  · intro store oid o h hp
    unfold cancel_order
    rw [h]
    unfold statusOf
    simp [hp, getAssoc_setAssoc]
  · intro store oid o price qty h
    unfold modify_order
    rw [h]
    by_cases hp : o.status = OStatus.pending
    · unfold statusOf
      simp [hp, getAssoc_setAssoc]
    · unfold statusOf
      simp [hp, h]
  · intro store oid o ops h hp hnores
    induction ops with
    | nil => rfl
    | cons op rest ih =>
      have hstep : applyOp store oid op = store := by
        cases op with
        | resolve s tid =>
          exact absurd (hnores _ (List.mem_cons_self _ _)) (by simp [isResolve])
        | cancel => exact cancel_nonpending store oid o h hp
        | modify price qty => exact modify_nonpending store oid o price qty h hp
      show applyOps (applyOp store oid op) oid rest = store
      rw [hstep]
      exact ih (fun op' hop' => hnores op' (List.mem_cons_of_mem _ hop'))

/-- Pending market BUY order of the C9 counterexample. -/
def ordC9 : Order :=
  { orderid := "O9"
    tradingsymbol := "SBIN-EQ"
    symboltoken := "3045"
    transactiontype := Side.BUY
    exchange := "NSE"
    ordertype := OrdKind.MARKET
    price := 0
    quantity := 10
    status := OStatus.pending
    orderstatus := "open" }

/-- Exchange store of the C9 counterexample. -/
def storeC9 : MockStore :=
  { orders := [("O9", ordC9)]
    trades := []
    positions := []
    priceData := fun tk => if tk = "3045" then some 520 else none }

/-- C9 counterexample: cancelling the pending order moves it out of
pending to cancelled, which is neither complete nor rejected; and the
background resolution running afterwards changes the status once more,
from cancelled to complete. -/
theorem C9_counterexample :
    statusOf storeC9 "O9" = some OStatus.pending
    ∧ statusOf (cancel_order storeC9 "O9") "O9" = some OStatus.cancelled
    ∧ (some OStatus.cancelled ≠ some OStatus.complete
      ∧ some OStatus.cancelled ≠ some OStatus.rejected)
    ∧ statusOf (process_order (cancel_order storeC9 "O9") "O9" true "T9") "O9"
        = some OStatus.complete :=
  ⟨rfl, rfl, ⟨by simp, by simp⟩, rfl⟩

/-- Witness for C9: the resolution clause applied to the concrete
pending order. -/
theorem C9_witness :
    getAssoc storeC9.orders "O9" = some ordC9
    ∧ statusOf (process_order storeC9 "O9" true "T9") "O9" = some OStatus.complete :=
  ⟨rfl, (C9_status_transitions_amended.1 storeC9 "O9" "T9" ordC9 rfl).1⟩

/-- Auto-exit cutoff in minutes since midnight
(`Config.AUTO_EXIT_TIME` = 15:25, i.e. 15*60+25). -/
def autoExitTime : ℚ := 925

/-- Quantity resolution of `execute_market_order` for a SELL submitted
with quantity 0 (main.py lines 300-309): the net quantity of the first
position whose symboltoken matches and whose net quantity is positive;
`none` when no such position exists (an HTTP 400 is raised and no order
is placed). -/
def resolve_sell_qty (positions : List Position) (token : String) : Option Int :=
  (positions.find? (fun p => decide (p.symboltoken = token) && decide (0 < p.netqty))).map
    Position.netqty

/-- Closing order submitted by the auto-exit sweep. -/
structure ExitOrder where
  symboltoken : String
  side : Side
  quantity : Int
deriving DecidableEq

/-- Orders submitted by one auto-exit sweep (`auto_exit_monitor`,
main.py lines 664-677): for each position with netqty > 0 a SELL with
quantity 0 is handed to `execute_market_order`, which resolves the
quantity from the ledger; a failing resolution is caught per position
and produces no order. -/
def auto_exit_orders (positions : List Position) : List ExitOrder :=
  (positions.filter (fun p => decide (0 < p.netqty))).filterMap
    (fun p => (resolve_sell_qty positions p.symboltoken).map
      (fun q => { symboltoken := p.symboltoken, side := Side.SELL, quantity := q }))

/-- One pass of `auto_exit_monitor` (main.py lines 655-690): when the
wall-clock time is at or past the cutoff and the bot is enabled, submit
the closing orders, disable the bot and clear the trigger registry;
otherwise change nothing and submit nothing. Returns the new bot flag,
the new trigger registry and the submitted orders. -/
def auto_exit_step (botActive : Bool) (triggers : List (String × Trigger))
    (positions : List Position) (nowTime : ℚ) :
    Bool × List (String × Trigger) × List ExitOrder :=
  if autoExitTime ≤ nowTime ∧ botActive = true then
    (false, [], auto_exit_orders positions)
  else (botActive, triggers, [])

lemma find_first_qualifying (positions : List Position)
    (hnd : (positions.map Position.symboltoken).Nodup)
    (p : Position) (hp : p ∈ positions) (hpos : 0 < p.netqty) :
    positions.find?
        (fun q => decide (q.symboltoken = p.symboltoken) && decide (0 < q.netqty))
      = some p := by
  induction positions with
  | nil => simp at hp
  | cons e rest ih =>
    rw [List.map_cons, List.nodup_cons] at hnd
    rcases List.mem_cons.mp hp with rfl | hp1
    · rw [List.find?_cons_of_pos]
      simp [hpos]
    · have hne : e.symboltoken ≠ p.symboltoken := by
        intro hEq
        apply hnd.1
        rw [hEq]
        exact List.mem_map.mpr ⟨p, hp1, rfl⟩
      rw [List.find?_cons_of_neg]
      · exact ih hnd.2 hp1
      · simp [hne]

lemma filterMap_eq_map_of {α β : Type} (l : List α) (f : α → Option β) (g : α → β)
    (h : ∀ a ∈ l, f a = some (g a)) : l.filterMap f = l.map g := by
  induction l with
  | nil => rfl
  | cons a rest ih =>
    rw [List.filterMap_cons, h a (List.mem_cons_self a rest), List.map_cons,
      ih (fun a' ha' => h a' (List.mem_cons_of_mem a ha'))]

/-- With pairwise-distinct symboltokens, the auto-exit sweep issues one
SELL per long position, sized to its exact net quantity. -/
lemma auto_exit_orders_eq (positions : List Position)
    (hnd : (positions.map Position.symboltoken).Nodup) :
    auto_exit_orders positions
      = (positions.filter (fun p => decide (0 < p.netqty))).map
          (fun p => { symboltoken := p.symboltoken, side := Side.SELL,
                      quantity := p.netqty }) := by
  unfold auto_exit_orders
  apply filterMap_eq_map_of
  intro p hp
  have hmem := (List.mem_filter.mp hp).1
  have hpos : 0 < p.netqty := by simpa using (List.mem_filter.mp hp).2
  unfold resolve_sell_qty
  rw [find_first_qualifying positions hnd p hmem hpos]
  rfl

/-- C3 (amended): when the observed time is at or past the 15:25 cutoff
and the bot is enabled, the auto-exit sweep submits exactly one closing
SELL order per instrument with positive (long) net quantity, each sized
to that position's exact net quantity — instruments with negative net
quantity are skipped — then disables the bot and clears the trigger
registry; once the bot is disabled, a sweep changes nothing and submits
nothing until it is re-enabled. -/
theorem C3_auto_exit_amended (triggers : List (String × Trigger))
    (positions : List Position) (nowTime : ℚ)
    (htime : autoExitTime ≤ nowTime)
    (hnd : (positions.map Position.symboltoken).Nodup) :
    auto_exit_step true triggers positions nowTime
      = (false, [],
          (positions.filter (fun p => decide (0 < p.netqty))).map
            (fun p => { symboltoken := p.symboltoken, side := Side.SELL,
                        quantity := p.netqty }))
    ∧ ∀ (triggers' : List (String × Trigger)) (positions' : List Position) (t' : ℚ),
        auto_exit_step false triggers' positions' t' = (false, triggers', []) := by
  constructor
  · unfold auto_exit_step
    rw [if_pos ⟨htime, rfl⟩, auto_exit_orders_eq positions hnd]
  · intro triggers' positions' t'
    unfold auto_exit_step
    rw [if_neg]
    simp

/-- Short position of the C3 counterexample: net quantity -5. -/
def shortPosC3 : Position :=
  { initPosition "3045" "SBIN-EQ" "NSE" 100 with netqty := -5, avgprice := 100 }

/-- C3 counterexample: at the cutoff with the bot enabled and a single
open short position (net quantity -5, nonzero), the sweep submits no
closing order at all — the claim demands one for every nonzero
position. -/
theorem C3_counterexample :
    shortPosC3.netqty ≠ 0
    ∧ auto_exit_step true [] [shortPosC3] 925 = (false, [], []) := by
  constructor
  · decide
  · norm_num [auto_exit_step, autoExitTime, auto_exit_orders, resolve_sell_qty,
      shortPosC3, initPosition, List.filter]

/-- Long position of the C3 witness: net quantity 10. -/
def longPosC3 : Position :=
  { initPosition "3045" "SBIN-EQ" "NSE" 100 with netqty := 10, avgprice := 100 }

/-- Witness for C3: the amended sweep applied at the cutoff to one long
position. -/
theorem C3_witness :
    autoExitTime ≤ (925 : ℚ)
    ∧ (([longPosC3].map Position.symboltoken).Nodup)
    ∧ auto_exit_step true [] [longPosC3] 925
        = (false, [],
            ([longPosC3].filter (fun p => decide (0 < p.netqty))).map
              (fun p => { symboltoken := p.symboltoken, side := Side.SELL,
                          quantity := p.netqty })) :=
  ⟨by norm_num [autoExitTime], by simp,
    (C3_auto_exit_amended [] [longPosC3] 925 (by norm_num [autoExitTime]) (by simp)).1⟩

end TradingBot
